import Mathlib

/-!
Verification of the Tuya cloud vacuum-map extractor
(`custom_components/tuya_cloud_map_extractor/tuya_vacuum_map_extractor/main.py`).

The Python module is shallowly embedded: its pure control flow is translated
function by function; the sibling modules it imports (`v0.py`, `v1.py`,
`custom0.py`, `common.py`, `tuya.py`) are not part of the checked sources, so
their functions appear either as explicit function parameters or, where the
design document gives an exact formula, as definitions modelled from it.
Python exceptions are modelled as an explicit error value with a `cause`
chain (mirroring `raise ... from e`); `try/except` blocks become matches on
`Except` values.  Calls into the external imaging library (PIL) are recorded
as constructors of a free image algebra `PImage`, with concrete pixel
semantics given for the two transpose operations, whose meaning the claims
inspect.
-/

namespace TuyaMap

/-- Kinds of Python exceptions that the module raises or handles. -/
inductive ErrKind where
  | jsonDecode
  | notSupported
  | valueError
  | requestError
  | keyError
  | typeError
  | indexError
  | zeroDivision
  | pilError
deriving DecidableEq, Repr

/-- A Python exception: a kind, a message, and optionally the `__cause__`
chain installed by `raise ... from e` (`wrap`). -/
inductive PyErr where
  | base (kind : ErrKind) (msg : String)
  | wrap (kind : ErrKind) (msg : String) (cause : PyErr)
deriving DecidableEq, Repr

/-- The exception kind. -/
def PyErr.kind : PyErr → ErrKind
  | .base k _ => k
  | .wrap k _ _ => k

/-- The exception message. -/
def PyErr.msg : PyErr → String
  | .base _ m => m
  | .wrap _ m _ => m

/-- The `__cause__` of the exception (`raise ... from e`). -/
def PyErr.cause : PyErr → Option PyErr
  | .base _ _ => none
  | .wrap _ _ c => some c

/-- A JSON value, as returned by `response.json()`. -/
inductive Json where
  | null
  | bool (b : Bool)
  | num (n : Int)
  | str (s : String)
  | arr (items : List Json)
  | obj (entries : List (String × Json))

/-- Python truthiness of a JSON value (`if not x`). -/
def Json.truthy : Json → Bool
  | .null => false
  | .bool b => b
  | .num n => n != 0
  | .str s => s ≠ ""
  | .arr elems => ¬ elems.isEmpty
  | .obj fields => ¬ fields.isEmpty

/-- Whether the value is a JSON list (`isinstance(x, list)`). -/
def Json.isArr : Json → Bool
  | .arr _ => true
  | _ => false

/-- Python `key in data` on a decoded JSON value: key membership for a dict,
element membership for a list, substring test for a string, `TypeError` for
scalars. -/
def pyIn (key : String) : Json → Except PyErr Bool
  | .obj fields => .ok (fields.any (fun f => f.1 = key))
  | .arr elems => .ok (elems.any (fun j => match j with
      | .str s => s = key
      | _ => false))
  | .str s => .ok ((s.splitOn key).length > 1)
  | _ => .error (.base .typeError "argument of type is not iterable")

/-- Python subscript `data[key]`: dict lookup (`KeyError` when absent),
`TypeError` on any non-dict value. -/
def pyGet (data : Json) (key : String) : Except PyErr Json :=
  match data with
  | .obj fields =>
    match fields.lookup key with
    | some v => .ok v
    | none => .error (.base .keyError key)
  | _ => .error (.base .typeError "indices must be str")

/-- Python `data.get(key)` on a decoded JSON value: `none` when the key is
absent, `TypeError` (no attribute) on a non-dict. -/
def pyGetOpt (data : Json) (key : String) : Except PyErr (Option Json) :=
  match data with
  | .obj fields => .ok (fields.lookup key)
  | _ => .error (.base .typeError "object has no attribute get")

/-- A `requests` response: `jsonVal = none` models `.json()` raising
`JSONDecodeError`, and `content` is the raw byte payload. -/
structure Response where
  jsonVal : Option Json
  content : List Nat

/-- The header's `version` entry: either a list of ints (binary headers,
compared against `[0]` / `[1]`) or a string such as `"custom0"`. -/
inductive HVersion where
  | list (v : List Nat)
  | str (s : String)
deriving DecidableEq, Repr

/-- Python `str(...)` rendering used in the unsupported-version message. -/
def versionRepr : HVersion → String
  | .list l => "[" ++ String.intercalate ", " (l.map toString) ++ "]"
  | .str s => s

/-- The normalized map header dict.  Fields that only some formats populate
are `Option`s: reading an absent key raises `KeyError` in Python, which the
embedding surfaces at the matching access site. -/
structure Header where
  version : HVersion
  width : Nat
  height : Nat
  roominfo : List Nat := []
  pileX : Option ℚ := none
  pileY : Option ℚ := none
  mapResolution : Option ℚ := none
  x_min : Option ℚ := none
  y_min : Option ℚ := none
deriving DecidableEq, Repr

/-- PIL resampling filters used by the module. -/
inductive Resample where
  | box
  | nearest
deriving DecidableEq, Repr

/-- Free algebra of PIL images: the base pixel matrix plus one constructor per
imaging-library call the module performs.  The claims inspect which calls are
made, with what arguments and in what order; concrete pixel semantics are
supplied (in `pixels`) only for the transpose operations, whose meaning a
claim inspects. -/
inductive PImage where
  | raw (m : List (List Nat))
  | rotate (deg : Int) (i : PImage)
  | transposeLR (i : PImage)
  | transposeTB (i : PImage)
  | resize (w h : Nat) (resample : Resample) (i : PImage)
  | line (xy : List ℚ) (fill : List Nat) (width : Nat) (i : PImage)
  | ellipse (x0 y0 x1 y1 : ℚ) (outline fill : List Nat) (width : Nat) (i : PImage)
deriving DecidableEq, Repr

/-- `image.size[0]`: PIL's width.  Rotation (fixed canvas), transposition and
drawing keep the size; `resize` sets it. -/
def PImage.sizeW : PImage → Nat
  | .raw m => (m.headD []).length
  | .rotate _ i => i.sizeW
  | .transposeLR i => i.sizeW
  | .transposeTB i => i.sizeW
  | .resize w _ _ _ => w
  | .line _ _ _ i => i.sizeW
  | .ellipse _ _ _ _ _ _ _ i => i.sizeW

/-- `image.size[1]`: PIL's height. -/
def PImage.sizeH : PImage → Nat
  | .raw m => m.length
  | .rotate _ i => i.sizeH
  | .transposeLR i => i.sizeH
  | .transposeTB i => i.sizeH
  | .resize _ h _ _ => h
  | .line _ _ _ i => i.sizeH
  | .ellipse _ _ _ _ _ _ _ i => i.sizeH

/-- Concrete pixel semantics for the operations whose meaning a claim
inspects: `Image.FLIP_LEFT_RIGHT` reverses every row (mirror across the
vertical axis) and `Image.FLIP_TOP_BOTTOM` reverses the row order (mirror
across the horizontal axis), per the imaging library's documentation.  Other
operations have no interpretation here. -/
def pixels : PImage → Option (List (List Nat))
  | .raw m => some m
  | .transposeLR i => (pixels i).map (fun rows => rows.map List.reverse)
  | .transposeTB i => (pixels i).map List.reverse
  | _ => none

/-- One lowercase hex digit: code 48 is `0`, code 97 is `a`. -/
def hexDigit (n : Nat) : Char :=
  let m := n % 16
  if m < 10 then Char.ofNat (48 + m) else Char.ofNat (97 + (m - 10))

/-- Two-character lowercase hex rendering of one byte (`bytes.hex` per byte). -/
def byteHex (b : Nat) : String := String.mk [hexDigit (b / 16), hexDigit b]

/-- `response.content.hex()`. -/
def bytesHex (bs : List Nat) : String := String.join (bs.map byteHex)

/-- The grid/header pair `parse_map` returns: the normalized header and the
raw cell-code payload handed to `render_layout`. -/
abbrev ParsedMap := Header × List Nat

/-- The condition `'result' in data and isinstance(data['result'], list)` of
`parse_map` (short-circuit evaluation; subscripting only happens when the
membership test succeeded, and a raised `TypeError`/`KeyError` escapes). -/
def resultListKey (data : Json) : Except PyErr Bool :=
  match pyIn "result" data with
  | .error e => .error e
  | .ok false => .ok false
  | .ok true =>
    match pyGet data "result" with
    | .error e => .error e
    | .ok v => .ok v.isArr

/-- Body of `parse_map`'s `try` block once `response.json()` succeeded:
standard format dispatches `decode_custom0(data)`, the `map_data` wrapper
dispatches `decode_custom0(data['map_data'])`, and an unrecognized shape
raises `JSONDecodeError("No recognized JSON format", "", 0)`. -/
def structured_attempt (dc0 : Json → Except PyErr ParsedMap) (data : Json) :
    Except PyErr ParsedMap :=
  match resultListKey data with
  | .error e => .error e
  | .ok true => dc0 data
  | .ok false =>
    match pyIn "map_data" data with
    | .error e => .error e
    | .ok true =>
      match pyGet data "map_data" with
      | .error e => .error e
      | .ok md => dc0 md
    | .ok false => .error (.base .jsonDecode "No recognized JSON format")

/-- The unsupported-version message of `parse_map`. -/
def unsupportedMapMsg (v : HVersion) : String :=
  "Map version " ++ versionRepr v ++ " is not supported."

/-- Body of `parse_map`'s inner (binary) `try` block: hex-encode the content,
decode the 48-hex-character preamble, then branch on `header["version"]`
(`[0]` → `decode_v0`, `[1]` → `decode_v1`, otherwise `NotSupportedError`). -/
def binary_attempt (dh : String → Except PyErr Header)
    (dv0 dv1 : String → Header → Except PyErr (List Nat))
    (content : List Nat) : Except PyErr ParsedMap :=
  let data := bytesHex content
  match dh (data.take 48) with
  | .error e => .error e
  | .ok header =>
    if header.version = HVersion.list [0] then
      (dv0 data header).map (fun a => (header, a))
    else if header.version = HVersion.list [1] then
      (dv1 data header).map (fun a => (header, a))
    else .error (.base .notSupported (unsupportedMapMsg header.version))

/-- The binary fallback branch of `parse_map`: any exception of the binary
attempt is wrapped as `ValueError("Failed to parse map data in any supported
format") from e`. -/
def binary_fallback (dh : String → Except PyErr Header)
    (dv0 dv1 : String → Header → Except PyErr (List Nat))
    (content : List Nat) : Except PyErr ParsedMap :=
  match binary_attempt dh dv0 dv1 content with
  | .ok r => .ok r
  | .error e =>
    .error (.wrap .valueError "Failed to parse map data in any supported format" e)

/-- `parse_map`: try the structured (JSON) route first; a `JSONDecodeError`
(from `response.json()`, from an unrecognized key shape, or from the decoder)
triggers the binary fallback on the same bytes, while any other exception of
the structured route escapes unwrapped. -/
def parse_map (dc0 : Json → Except PyErr ParsedMap)
    (dh : String → Except PyErr Header)
    (dv0 dv1 : String → Header → Except PyErr (List Nat))
    (resp : Response) : Except PyErr ParsedMap :=
  let attempt : Except PyErr ParsedMap :=
    match resp.jsonVal with
    | none => .error (.base .jsonDecode "Expecting value")
    | some data => structured_attempt dc0 data
  match attempt with
  | .ok r => .ok r
  | .error e =>
    if e.kind = .jsonDecode then binary_fallback dh dv0 dv1 resp.content
    else .error e

/-- Inner `try` of `parse_path`'s binary route: `decode_path_v1` on the hex
content, with `except Exception: return []` collapsing any failure into an
empty path. -/
def binary_path_attempt (dpv1 : String → Except PyErr (List (List ℚ)))
    (content : List Nat) : Except PyErr (List (List ℚ)) :=
  match dpv1 (bytesHex content) with
  | .ok p => .ok p
  | .error _ => .ok []

/-- `parse_path`: structured route first (`decode_path_custom0`), binary
fallback on a `JSONDecodeError` only, then every coordinate of every decoded
point is multiplied by `scale` into one flat list. -/
def parse_path (dpc0 : Json → Header → Except PyErr (List (List ℚ)))
    (dpv1 : String → Except PyErr (List (List ℚ)))
    (resp : Response) (scale : ℚ) (header : Header) : Except PyErr (List ℚ) :=
  let pathData : Except PyErr (List (List ℚ)) :=
    match resp.jsonVal with
    | none => binary_path_attempt dpv1 resp.content
    | some data =>
      match dpc0 data header with
      | .ok p => .ok p
      | .error e =>
        if e.kind = .jsonDecode then binary_path_attempt dpv1 resp.content
        else .error e
  match pathData with
  | .error e => .error e
  | .ok pd => .ok (pd.flatten.map (fun i => i * scale))

/-- The `settings` dict.  Fields default to the values `settings.get(...)`
substitutes for absent keys. -/
structure Settings where
  rotate : Int := 0
  flip_vertical : Bool := false
  flip_horizontal : Bool := false
  path_enabled : Bool := false
deriving DecidableEq, Repr

/-- The `colors` dict: semantic key to RGBA channel list. -/
abbrev Colors := List (String × List Nat)

/-- `tuple(colors.get("path_color", [0, 255, 0]))`. -/
def pathColor (colors : Colors) : List Nat :=
  match colors.lookup "path_color" with
  | some c => c
  | none => [0, 255, 0]

/-- The gated rotation call of `flip`: `image.rotate(rotate)` only when the
angle is one of `[90, 180, -90, 270]`; the library call itself may raise. -/
def rotStepE (rot : Int → PImage → Except PyErr PImage) (r : Int) (i : PImage) :
    Except PyErr PImage :=
  if [90, 180, -90, 270].contains r then rot r i else .ok i

/-- The gated `transpose(Image.FLIP_LEFT_RIGHT)` call of `flip`. -/
def vStepE (tlr : PImage → Except PyErr PImage) (b : Bool) (i : PImage) :
    Except PyErr PImage :=
  if b then tlr i else .ok i

/-- The gated `transpose(Image.FLIP_TOP_BOTTOM)` call of `flip`. -/
def hStepE (ttb : PImage → Except PyErr PImage) (b : Bool) (i : PImage) :
    Except PyErr PImage :=
  if b then ttb i else .ok i

/-- `flip`: sequential reassignment of the `image` local under one
`try/except` — on an exception the current (possibly partially transformed)
value of `image` is returned, never the exception.  The imaging-library calls
are passed in as fallible functions. -/
def flip (rot : Int → PImage → Except PyErr PImage)
    (tlr ttb : PImage → Except PyErr PImage)
    (headers : Header) (image : PImage) (settings : Settings) : Header × PImage :=
  match rotStepE rot settings.rotate image with
  | .error _ => (headers, image)
  | .ok i1 =>
    match vStepE tlr settings.flip_vertical i1 with
    | .error _ => (headers, i1)
    | .ok i2 =>
      match hStepE ttb settings.flip_horizontal i2 with
      | .error _ => (headers, i2)
      | .ok i3 => (headers, i3)

/-- The infallible imaging-library rotation (records the call). -/
def rotOk (d : Int) (i : PImage) : Except PyErr PImage := .ok (.rotate d i)

/-- The infallible `FLIP_LEFT_RIGHT` transpose (records the call). -/
def tlrOk (i : PImage) : Except PyErr PImage := .ok (.transposeLR i)

/-- The infallible `FLIP_TOP_BOTTOM` transpose (records the call). -/
def ttbOk (i : PImage) : Except PyErr PImage := .ok (.transposeTB i)

/-- The rotation stage as a pure image transformation (rotation applied
exactly for the four recognized angles). -/
def rotateStep (r : Int) (i : PImage) : PImage :=
  if [90, 180, -90, 270].contains r then .rotate r i else i

/-- The vertical-flip-flag stage as a pure image transformation. -/
def vFlipStep (b : Bool) (i : PImage) : PImage := if b then .transposeLR i else i

/-- The horizontal-flip-flag stage as a pure image transformation. -/
def hFlipStep (b : Bool) (i : PImage) : PImage := if b then .transposeTB i else i

/-- `render_layout`: normalize `header["version"]` to a protocol string
(`str(header["version"][0])` for list versions — an empty list raises
`IndexError`), dispatch the per-protocol array builder, and wrap the array as
an image (`Image.fromarray`).  The `except` clause logs and re-raises, so
exceptions pass through unchanged. -/
def render_layout (ta_c0 ta_v0 : List Nat → Nat → Nat → Colors → Except PyErr (List (List Nat)))
    (ta_v1 : List Nat → Nat → Nat → List Nat → Colors → Except PyErr (List (List Nat)))
    (raw_map : List Nat) (header : Header) (colors : Colors) :
    Except PyErr PImage :=
  let width := header.width
  let height := header.height
  let protoVerE : Except PyErr String :=
    match header.version with
    | .list (v :: _) => .ok (toString v)
    | .list [] => .error (.base .indexError "list index out of range")
    | .str s => .ok s
  match protoVerE with
  | .error e => .error e
  | .ok protoVer =>
    let pixellist := raw_map
    let arrE : Except PyErr (List (List Nat)) :=
      if protoVer = "custom0" then ta_c0 pixellist width height colors
      else if protoVer = "0" then ta_v0 pixellist width height colors
      else if protoVer = "1" then ta_v1 pixellist width height header.roominfo colors
      else .error (.base .notSupported ("Protocol version " ++ protoVer ++ " not supported"))
    match arrE with
    | .error e => .error e
    | .ok array => .ok (PImage.raw array)

/-- Modelled from the spec: `map_to_image` of `custom0.py` is not under the
checked sources; §4.5 gives the Structured coordinate transform explicitly as
an affine mapping `pixel = (raw - origin) / resolution` using
`mapResolution`, `x_min`, `y_min` from the header. -/
def map_to_image (p : ℚ × ℚ) (res x_min y_min : ℚ) : ℚ × ℚ :=
  ((p.1 - x_min) / res, (p.2 - y_min) / res)

/-- `int(1080/image.size[0])`: float division raises `ZeroDivisionError` on a
zero width; otherwise truncation of the nonnegative quotient is the floor,
i.e. natural division. -/
def scale_calc (w : Nat) : Except PyErr Nat :=
  if w = 0 then .error (.base .zeroDivision "division by zero")
  else .ok (1080 / w)

/-- `next((item["map_url"] for item in links if "map_url" in item), None)`:
first entry carrying the key wins; an exception raised while testing or
subscripting an entry escapes. -/
def first_map_url : List Json → Except PyErr (Option Json)
  | [] => .ok none
  | item :: rest =>
    match pyIn "map_url" item with
    | .error e => .error e
    | .ok true =>
      match pyGet item "map_url" with
      | .error e => .error e
      | .ok v => .ok (some v)
    | .ok false => first_map_url rest

/-- Modelled from the spec: the claim's selection rule for the path blob URL
— the first entry carrying the map-role key strictly after the entry chosen
for the map.  Stated for comparison with the implementation's
`urls["links"][1:]` search. -/
def spec_path_url : List Json → Except PyErr (Option Json)
  | [] => .ok none
  | item :: rest =>
    match pyIn "map_url" item with
    | .error e => .error e
    | .ok true => first_map_url rest
    | .ok false => spec_path_url rest

/-- The link-resolution step of `get_map` when no `urls` were supplied: call
the link provider, validate `link.get("result")` is truthy and a list, and
take it as the ordered link list. -/
def resolve_links (gdl : Except PyErr Json) : Except PyErr (List Json) :=
  match gdl with
  | .error e => .error e
  | .ok link =>
    match pyGetOpt link "result" with
    | .error e => .error e
    | .ok v =>
      match v with
      | some (Json.arr xs) =>
        if (Json.arr xs).truthy then .ok xs
        else .error (.base .valueError "Invalid API response format")
      | _ => .error (.base .valueError "Invalid API response format")

/-- The external collaborators of `get_map`: the link provider
(`get_download_link`), the blob fetcher (`download`), the per-format decoders
from the sibling modules that are not under the checked sources, the shared
point formatter `_format_path_point`, and the three fallible imaging-library
transform calls used by `flip`. -/
structure Deps where
  gdl : Except PyErr Json
  download : Json → Except PyErr Response
  dc0 : Json → Except PyErr ParsedMap
  dh : String → Except PyErr Header
  dv0 : String → Header → Except PyErr (List Nat)
  dv1 : String → Header → Except PyErr (List Nat)
  ta_c0 : List Nat → Nat → Nat → Colors → Except PyErr (List (List Nat))
  ta_v0 : List Nat → Nat → Nat → Colors → Except PyErr (List (List Nat))
  ta_v1 : List Nat → Nat → Nat → List Nat → Colors → Except PyErr (List (List Nat))
  dpc0 : Json → Header → Except PyErr (List (List ℚ))
  dpv1 : String → Except PyErr (List (List ℚ))
  fpp : ℚ × ℚ → Bool → ℚ × ℚ
  rot : Int → PImage → Except PyErr PImage
  tlr : PImage → Except PyErr PImage
  ttb : PImage → Except PyErr PImage

/-- `x, y = point[0]*scale, point[1]*scale`: the dock marker's pixel center
is the transformed point multiplied by the integer scale factor. -/
def markerCenter (p : ℚ × ℚ) (scale : Nat) : ℚ × ℚ :=
  (p.1 * (scale : ℚ), p.2 * (scale : ℚ))

/-- `draw.ellipse([(x-10, y-10), (x+10, y+10)], outline=(255, 255, 255),
fill=(0, 255, 0), width=2)`: a radius-10 filled circle with a contrasting
outline at the given center. -/
def ellipseAt (cx cy : ℚ) (image : PImage) : PImage :=
  PImage.ellipse (cx - 10) (cy - 10) (cx + 10) (cy + 10)
    [255, 255, 255] [0, 255, 0] 2 image

/-- The charging-station block of `get_map`: when both pile coordinates are
in the header, transform them with `_format_path_point` for the binary
versions or `map_to_image` for the structured one (a missing geometry field
raises `KeyError`), scale, and draw a radius-10 circle with a white outline
and green fill, stroke width 2. -/
def dock_draw (fpp : ℚ × ℚ → Bool → ℚ × ℚ) (header : Header) (scale : Nat)
    (image : PImage) : Except PyErr PImage :=
  match header.pileX, header.pileY with
  | some x, some y =>
    let pointE : Except PyErr (ℚ × ℚ) :=
      if header.version = .list [0] ∨ header.version = .list [1] then
        .ok (fpp (x, y) false)
      else
        match header.mapResolution, header.x_min, header.y_min with
        | some res, some xm, some ym => .ok (map_to_image (x, y) res xm ym)
        | _, _, _ => .error (.base .keyError "missing geometry field")
    match pointE with
    | .error e => .error e
    | .ok p =>
      let c := markerCenter p scale
      .ok (ellipseAt c.1 c.2 image)
  | _, _ => .ok image

/-- The `try` block of `get_map`'s path branch, with the `image` local
reassigned step by step exactly as in the source: on an exception the branch
yields whatever `image` currently holds (original before the resize, resized
afterwards, with the path line once drawn). -/
def path_try (deps : Deps) (link : Json) (colors : Colors) (header : Header)
    (image : PImage) : PImage :=
  match deps.download link with
  | .error _ => image
  | .ok presp =>
    match scale_calc image.sizeW with
    | .error _ => image
    | .ok scale =>
      let resized := PImage.resize (image.sizeW * scale) (image.sizeH * scale) .box image
      match parse_path deps.dpc0 deps.dpv1 presp (scale : ℚ) header with
      | .error _ => resized
      | .ok path =>
        if path.isEmpty then resized
        else
          let lined := PImage.line path (pathColor colors) 2 resized
          match dock_draw deps.fpp header scale lined with
          | .ok i => i
          | .error _ => lined

/-- The body of `get_map`'s outer `try`: resolve links, pick the map URL,
download, parse, render, optionally run the path branch, then apply
`flip`. -/
def get_map_inner (deps : Deps) (colors : Colors) (settings : Settings)
    (urls : Option (List Json)) : Except PyErr (Header × PImage) :=
  let linksE : Except PyErr (List Json) :=
    match urls with
    | some u => .ok u
    | none => resolve_links deps.gdl
  match linksE with
  | .error e => .error e
  | .ok links =>
    match first_map_url links with
    | .error e => .error e
    | .ok ml =>
      let mapLinkE : Except PyErr Json :=
        match ml with
        | some v =>
          if v.truthy then .ok v else .error (.base .valueError "No map URL available")
        | none => .error (.base .valueError "No map URL available")
      match mapLinkE with
      | .error e => .error e
      | .ok mapLink =>
        match deps.download mapLink with
        | .error e => .error e
        | .ok response =>
          match parse_map deps.dc0 deps.dh deps.dv0 deps.dv1 response with
          | .error e => .error e
          | .ok (header, mapDataArr) =>
            match render_layout deps.ta_c0 deps.ta_v0 deps.ta_v1 mapDataArr header colors with
            | .error e => .error e
            | .ok image =>
              if settings.path_enabled then
                match first_map_url (links.drop 1) with
                | .error e => .error e
                | .ok pl =>
                  let image' :=
                    match pl with
                    | some l => if l.truthy then path_try deps l colors header image else image
                    | none => image
                  .ok (flip deps.rot deps.tlr deps.ttb header image' settings)
              else
                .ok (flip deps.rot deps.tlr deps.ttb header image settings)

/-- `get_map`: the outer `except` wraps any escaping exception as
`ValueError("Failed to process map data") from e`. -/
def get_map (deps : Deps) (colors : Colors) (settings : Settings)
    (urls : Option (List Json)) : Except PyErr (Header × PImage) :=
  match get_map_inner deps colors settings urls with
  | .ok r => .ok r
  | .error e => .error (.wrap .valueError "Failed to process map data" e)

/-! ## Concrete fixtures used by the witnesses -/

/-- A small legacy-format header fixture. -/
def hdr0 : Header := { version := .list [0], width := 2, height := 2 }

/-- A structured-format header fixture with full geometry. -/
def hdrC : Header :=
  { version := .str "custom0", width := 2, height := 2,
    pileX := some 6, pileY := some 8,
    mapResolution := some 2, x_min := some 4, y_min := some 4 }

/-- A structured payload fixture carrying a results list. -/
def dataW : Json := Json.obj [("result", Json.arr [Json.null])]

/-- A response whose body parses as JSON (`dataW`). -/
def respJsonW : Response := ⟨some dataW, []⟩

/-- A response whose body is not JSON (binary payload). -/
def respBinW : Response := ⟨none, [1, 2]⟩

/-- A structured decoder fixture that always succeeds. -/
def dc0W : Json → Except PyErr ParsedMap := fun _ => .ok (hdr0, [7])

/-- A header decoder fixture returning `hdr0`. -/
def dhW : String → Except PyErr Header := fun _ => .ok hdr0

/-- A legacy grid decoder fixture. -/
def dv0W : String → Header → Except PyErr (List Nat) := fun _ _ => .ok [1, 2, 3, 4]

/-- A rich grid decoder fixture. -/
def dv1W : String → Header → Except PyErr (List Nat) := fun _ _ => .ok [5]

/-! ## C1 -/

/-- C1: for every fetched map payload, `parse_map` attempts structured
decoding first — the Structured decoder is selected when a top-level
`result` list or a `map_data` wrapper is present — and falls back to binary
header decoding of the same bytes exactly when the JSON route fails with a
JSON decode error or neither recognized key is present; the structured-first,
binary-fallback order always holds. -/
theorem parse_map_structured_first
    (dc0 : Json → Except PyErr ParsedMap)
    (dh : String → Except PyErr Header)
    (dv0 dv1 : String → Header → Except PyErr (List Nat))
    (resp : Response) :
    (∀ data r, resp.jsonVal = some data →
        structured_attempt dc0 data = .ok r →
        parse_map dc0 dh dv0 dv1 resp = .ok r)
  ∧ (∀ data, resultListKey data = .ok true →
        structured_attempt dc0 data = dc0 data)
  ∧ (∀ data md, resultListKey data = .ok false →
        pyIn "map_data" data = .ok true → pyGet data "map_data" = .ok md →
        structured_attempt dc0 data = dc0 md)
  ∧ (resp.jsonVal = none →
        parse_map dc0 dh dv0 dv1 resp = binary_fallback dh dv0 dv1 resp.content)
  ∧ (∀ data, resp.jsonVal = some data → resultListKey data = .ok false →
        pyIn "map_data" data = .ok false →
        parse_map dc0 dh dv0 dv1 resp = binary_fallback dh dv0 dv1 resp.content) := by
  refine ⟨?_, ?_, ?_, ?_, ?_⟩
  · intro data r hj hs
    simp [parse_map, hj, hs]
  · intro data hk
    simp [structured_attempt, hk]
  · intro data md hk hm hg
    simp [structured_attempt, hk, hm, hg]
  · intro hj
    simp [parse_map, hj, PyErr.kind]
  · intro data hj hk hm
    simp [parse_map, hj, structured_attempt, hk, hm, PyErr.kind]

/-- Witness for C1: a payload with a `result` list is decoded by the
structured decoder, and a non-JSON payload goes to the binary fallback. -/
theorem parse_map_structured_first_witness :
    parse_map dc0W dhW dv0W dv1W respJsonW = .ok (hdr0, [7])
  ∧ parse_map dc0W dhW dv0W dv1W respBinW =
      binary_fallback dhW dv0W dv1W respBinW.content := by
  constructor
  · exact (parse_map_structured_first dc0W dhW dv0W dv1W respJsonW).1 dataW
      (hdr0, [7]) rfl rfl
  · exact (parse_map_structured_first dc0W dhW dv0W dv1W respBinW).2.2.2.1 rfl

/-! ## C2 -/

/-- C2: for every binary payload (one whose body is not JSON), once the
header decodes, a version other than `[0]` and `[1]` makes `parse_map` fail
with the `NotSupportedError` naming the offending version (wrapped, per the
module's fatal-error policy, in the single `ValueError` failure kind) — it
never returns a grid — while version `[0]` dispatches `decode_v0` and
version `[1]` dispatches `decode_v1`. -/
theorem parse_map_version_dispatch
    (dc0 : Json → Except PyErr ParsedMap) (dh : String → Except PyErr Header)
    (dv0 dv1 : String → Header → Except PyErr (List Nat))
    (resp : Response) (h : Header)
    (hjson : resp.jsonVal = none)
    (hdh : dh ((bytesHex resp.content).take 48) = .ok h) :
    (h.version ≠ .list [0] → h.version ≠ .list [1] →
       parse_map dc0 dh dv0 dv1 resp =
         .error (.wrap .valueError "Failed to parse map data in any supported format"
            (.base .notSupported (unsupportedMapMsg h.version))))
  ∧ (∀ arr, h.version = .list [0] → dv0 (bytesHex resp.content) h = .ok arr →
       parse_map dc0 dh dv0 dv1 resp = .ok (h, arr))
  ∧ (∀ arr, h.version = .list [1] → dv1 (bytesHex resp.content) h = .ok arr →
       parse_map dc0 dh dv0 dv1 resp = .ok (h, arr)) := by
  refine ⟨?_, ?_, ?_⟩
  · intro h0 h1
    simp [parse_map, hjson, PyErr.kind, binary_fallback, binary_attempt, hdh, h0, h1]
  · intro arr h0 hv
    simp [parse_map, hjson, PyErr.kind, binary_fallback, binary_attempt, hdh, h0, hv,
      Except.map]
  · intro arr h1 hv
    have hne : HVersion.list [1] ≠ HVersion.list [0] := by decide
    simp [parse_map, hjson, PyErr.kind, binary_fallback, binary_attempt, hdh, h1, hv, hne,
      Except.map]

/-- A header decoder fixture returning an unsupported version `[5]`. -/
def dhBadW : String → Except PyErr Header :=
  fun _ => .ok { version := .list [5], width := 2, height := 2 }

/-- Witness for C2: version `[5]` yields the wrapped unsupported-version
failure, and version `[0]` yields `decode_v0`'s grid. -/
theorem parse_map_version_dispatch_witness :
    parse_map dc0W dhBadW dv0W dv1W respBinW =
      .error (.wrap .valueError "Failed to parse map data in any supported format"
        (.base .notSupported (unsupportedMapMsg (.list [5]))))
  ∧ parse_map dc0W dhW dv0W dv1W respBinW = .ok (hdr0, [1, 2, 3, 4]) := by
  constructor
  · exact (parse_map_version_dispatch dc0W dhBadW dv0W dv1W respBinW
      { version := .list [5], width := 2, height := 2 } rfl rfl).1
      (by decide) (by decide)
  · exact (parse_map_version_dispatch dc0W dhW dv0W dv1W respBinW hdr0 rfl rfl).2.1
      [1, 2, 3, 4] rfl rfl

/-! ## C5 -/

/-- C5: with the imaging-library calls succeeding, `flip` applies rotation
first (only for an angle in {90, 180, 270, -90}; any other value leaves the
image unrotated), then the vertical flip, then the horizontal flip, each flip
gated independently by its boolean flag. -/
theorem flip_rotate_then_flips (headers : Header) (image : PImage)
    (settings : Settings) :
    flip rotOk tlrOk ttbOk headers image settings =
      (headers,
        hFlipStep settings.flip_horizontal
          (vFlipStep settings.flip_vertical (rotateStep settings.rotate image)))
  ∧ (([90, 180, -90, 270] : List Int).contains settings.rotate = false →
        rotateStep settings.rotate image = image) := by
  constructor
  · obtain ⟨r, fv, fh, pe⟩ := settings
    by_cases hr : ([90, 180, -90, 270] : List Int).contains r = true <;>
      cases fv <;> cases fh <;>
        simp_all [flip, rotStepE, vStepE, hStepE, rotOk, tlrOk, ttbOk,
          rotateStep, vFlipStep, hFlipStep]
  · intro hr
    simp only [rotateStep, hr]
    simp

/-- Witness for C5: rotation by 90 precedes both flips, and an unrecognized
angle (45) leaves the image unrotated. -/
theorem flip_rotate_then_flips_witness :
    flip rotOk tlrOk ttbOk hdr0 (.raw [[1, 2], [3, 4]])
        { rotate := 90, flip_vertical := true, flip_horizontal := true } =
      (hdr0, .transposeTB (.transposeLR (.rotate 90 (.raw [[1, 2], [3, 4]]))))
  ∧ rotateStep 45 (.raw [[1, 2], [3, 4]]) = .raw [[1, 2], [3, 4]] := by
  constructor
  · exact (flip_rotate_then_flips hdr0 (.raw [[1, 2], [3, 4]])
      { rotate := 90, flip_vertical := true, flip_horizontal := true }).1
  · exact (flip_rotate_then_flips hdr0 (.raw [[1, 2], [3, 4]])
      { rotate := 45 }).2 (by decide)

/-! ## C10 -/

/-- C10: in the transform step, the `flip_vertical` flag mirrors the image
left-to-right (each row reversed: a transpose across the vertical axis), and
the `flip_horizontal` flag mirrors it top-to-bottom (row order reversed: a
transpose across the horizontal axis). -/
theorem flip_transpose_semantics (headers : Header) (m : List (List Nat))
    (s : Settings) :
    (s.rotate = 0 → s.flip_vertical = true → s.flip_horizontal = false →
        (flip rotOk tlrOk ttbOk headers (.raw m) s).2 = .transposeLR (.raw m)
      ∧ pixels ((flip rotOk tlrOk ttbOk headers (.raw m) s).2) =
          some (m.map List.reverse))
  ∧ (s.rotate = 0 → s.flip_vertical = false → s.flip_horizontal = true →
        (flip rotOk tlrOk ttbOk headers (.raw m) s).2 = .transposeTB (.raw m)
      ∧ pixels ((flip rotOk tlrOk ttbOk headers (.raw m) s).2) = some m.reverse) := by
  constructor
  · intro h0 hv hh
    simp [flip, rotStepE, vStepE, hStepE, rotOk, tlrOk, ttbOk, h0, hv, hh, pixels]
  · intro h0 hv hh
    simp [flip, rotStepE, vStepE, hStepE, rotOk, tlrOk, ttbOk, h0, hv, hh, pixels]

/-- Witness for C10: on a concrete 2×2 matrix the vertical flag reverses each
row and the horizontal flag reverses the row order. -/
theorem flip_transpose_semantics_witness :
    pixels ((flip rotOk tlrOk ttbOk hdr0 (.raw [[1, 2], [3, 4]])
        { flip_vertical := true }).2) = some [[2, 1], [4, 3]]
  ∧ pixels ((flip rotOk tlrOk ttbOk hdr0 (.raw [[1, 2], [3, 4]])
        { flip_horizontal := true }).2) = some [[3, 4], [1, 2]] := by
  constructor
  · exact ((flip_transpose_semantics hdr0 [[1, 2], [3, 4]]
      { flip_vertical := true }).1 rfl rfl rfl).2
  · exact ((flip_transpose_semantics hdr0 [[1, 2], [3, 4]]
      { flip_horizontal := true }).2 rfl rfl rfl).2

/-! ## C6 -/

/-- C6, counterexample: when the rotation succeeds and the subsequent
transpose call fails, `flip` returns the rotated image, not the image in its
pre-transform state — the claim that a transform failure always yields the
untransformed image is false. -/
theorem flip_partial_state_cex :
    flip rotOk (fun _ => .error (.base .pilError "transpose failed")) ttbOk
        hdr0 (.raw [[1, 2], [3, 4]]) { rotate := 180, flip_vertical := true } =
      (hdr0, .rotate 180 (.raw [[1, 2], [3, 4]]))
  ∧ PImage.rotate 180 (.raw [[1, 2], [3, 4]]) ≠ PImage.raw [[1, 2], [3, 4]] := by
  constructor
  · rfl
  · decide

/-- C6, amended: any failure during the rotate/flip step is caught rather
than propagated, and `flip` returns the image in the state it had reached
when the failing call was made: the untransformed image when the failure
occurs at the rotation stage (or before any transform applies), otherwise the
partially transformed image produced by the stages that succeeded. -/
theorem flip_failure_containment
    (rot : Int → PImage → Except PyErr PImage)
    (tlr ttb : PImage → Except PyErr PImage)
    (headers : Header) (image : PImage) (settings : Settings) :
    (∀ e, rotStepE rot settings.rotate image = .error e →
        flip rot tlr ttb headers image settings = (headers, image))
  ∧ (∀ i1 e, rotStepE rot settings.rotate image = .ok i1 →
        vStepE tlr settings.flip_vertical i1 = .error e →
        flip rot tlr ttb headers image settings = (headers, i1))
  ∧ (∀ i1 i2 e, rotStepE rot settings.rotate image = .ok i1 →
        vStepE tlr settings.flip_vertical i1 = .ok i2 →
        hStepE ttb settings.flip_horizontal i2 = .error e →
        flip rot tlr ttb headers image settings = (headers, i2)) := by
  refine ⟨?_, ?_, ?_⟩
  · intro e hr
    simp [flip, hr]
  · intro i1 e hr hv
    simp [flip, hr, hv]
  · intro i1 i2 e hr hv hh
    simp [flip, hr, hv, hh]

/-- Witness for C6's amended statement: a failing rotation call returns the
original image unchanged. -/
theorem flip_failure_containment_witness :
    flip (fun _ _ => .error (.base .pilError "rotate failed")) tlrOk ttbOk
        hdr0 (.raw [[1, 2], [3, 4]]) { rotate := 180 } =
      (hdr0, .raw [[1, 2], [3, 4]]) := by
  exact (flip_failure_containment (fun _ _ => .error (.base .pilError "rotate failed"))
    tlrOk ttbOk hdr0 (.raw [[1, 2], [3, 4]]) { rotate := 180 }).1
    (.base .pilError "rotate failed") rfl

/-! ## C3 -/

/-- A response whose body parses as an empty JSON object (path payload). -/
def respPathW : Response := ⟨some (Json.obj []), []⟩

/-- An ordered link list: the map entry first, a path entry second. -/
def linksW : List Json :=
  [Json.obj [("map_url", Json.str "m")], Json.obj [("map_url", Json.str "p")]]

/-- A full dependency fixture for a request whose path decode fails: the map
blob `"m"` is binary (legacy v0, 2×2), the path blob `"p"` is JSON, and
`decode_path_custom0` raises a `KeyError`. -/
def depsC3 : Deps :=
  { gdl := .error (.base .requestError "unused"),
    download := fun j =>
      match j with
      | .str s => if s = "m" then .ok respBinW else .ok respPathW
      | _ => .error (.base .requestError "bad url"),
    dc0 := dc0W,
    dh := dhW,
    dv0 := dv0W,
    dv1 := dv1W,
    ta_c0 := fun _ _ _ _ => .error (.base .valueError "unused"),
    ta_v0 := fun _ _ _ _ => .ok [[1, 2], [3, 4]],
    ta_v1 := fun _ _ _ _ _ => .error (.base .valueError "unused"),
    dpc0 := fun _ _ => .error (.base .keyError "path decode failed"),
    dpv1 := fun _ => .ok [],
    fpp := fun p _ => p,
    rot := rotOk, tlr := tlrOk, ttb := ttbOk }

/-- C3, counterexample: a request whose path decode fails after the upscale
still succeeds, but returns the upscaled image — not the unscaled one the
claim promises. -/
theorem path_branch_scaled_cex :
    get_map depsC3 [] { path_enabled := true } (some linksW) =
      .ok (hdr0, .resize 1080 1080 .box (.raw [[1, 2], [3, 4]]))
  ∧ PImage.resize 1080 1080 .box (.raw [[1, 2], [3, 4]]) ≠
      PImage.raw [[1, 2], [3, 4]] := by
  constructor
  · rfl
  · decide

/-- C3, amended: any failure in the optional path branch (path fetch, path
decode, or path/dock compositing) is caught, the branch is skipped from that
point, and the request still succeeds with the map image as it stood when
the failure occurred — unscaled and path-free when the path fetch fails,
upscaled and path-free when the path decode fails, and upscaled with the
already-drawn path line when the dock compositing fails. -/
theorem path_branch_containment (deps : Deps) (link : Json) (colors : Colors)
    (header : Header) (image : PImage) :
    (∀ e, deps.download link = .error e →
        path_try deps link colors header image = image)
  ∧ (∀ presp scale e, deps.download link = .ok presp →
        scale_calc image.sizeW = .ok scale →
        parse_path deps.dpc0 deps.dpv1 presp (scale : ℚ) header = .error e →
        path_try deps link colors header image =
          .resize (image.sizeW * scale) (image.sizeH * scale) .box image)
  ∧ (∀ (settings : Settings) (links : List Json) u resp hdr arr img pl,
        settings.path_enabled = true →
        first_map_url links = .ok (some u) → u.truthy = true →
        deps.download u = .ok resp →
        parse_map deps.dc0 deps.dh deps.dv0 deps.dv1 resp = .ok (hdr, arr) →
        render_layout deps.ta_c0 deps.ta_v0 deps.ta_v1 arr hdr colors = .ok img →
        first_map_url (links.drop 1) = .ok (some pl) → pl.truthy = true →
        get_map deps colors settings (some links) =
          .ok (flip deps.rot deps.tlr deps.ttb hdr
            (path_try deps pl colors hdr img) settings))
  ∧ (∀ presp scale path e, deps.download link = .ok presp →
        scale_calc image.sizeW = .ok scale →
        parse_path deps.dpc0 deps.dpv1 presp (scale : ℚ) header = .ok path →
        path.isEmpty = false →
        dock_draw deps.fpp header scale
          (PImage.line path (pathColor colors) 2
            (.resize (image.sizeW * scale) (image.sizeH * scale) .box image)) =
          .error e →
        path_try deps link colors header image =
          PImage.line path (pathColor colors) 2
            (.resize (image.sizeW * scale) (image.sizeH * scale) .box image)) := by
  refine ⟨?_, ?_, ?_, ?_⟩
  · intro e hd
    simp [path_try, hd]
  · intro presp scale e hd hs hp
    simp [path_try, hd, hs, hp]
  · intro settings links u resp hdr arr img pl hpe hfu htr hd hpm hrl hpl hplt
    simp only [List.drop_one] at hpl
    simp [get_map, get_map_inner, hpe, hfu, htr, hd, hpm, hrl, hpl, hplt]
  · intro presp scale path e hd hs hp hne hdk
    simp [path_try, hd, hs, hp, hne, hdk]

/-- Witness for C3's amended statement: the failing path decode of the
counterexample's fixture leaves the branch with the upscaled, path-free
image. -/
theorem path_branch_containment_witness :
    path_try depsC3 (Json.str "p") [] hdr0 (.raw [[1, 2], [3, 4]]) =
      .resize 1080 1080 .box (.raw [[1, 2], [3, 4]]) := by
  exact (path_branch_containment depsC3 (Json.str "p") [] hdr0
    (.raw [[1, 2], [3, 4]])).2.1 respPathW 540 (.base .keyError "path decode failed")
    rfl rfl rfl

/-! ## C4 -/

/-- C4: every fatal-stage failure — fetch, header/grid decode, or
rasterization — propagates to the caller as the single failure kind
`ValueError("Failed to process map data")` chained (`from e`) to the
original error. -/
theorem get_map_wraps_fatal (deps : Deps) (colors : Colors) (settings : Settings)
    (links : List Json) (u : Json) :
    (∀ e, first_map_url links = .ok (some u) → u.truthy = true →
        deps.download u = .error e →
        get_map deps colors settings (some links) =
          .error (.wrap .valueError "Failed to process map data" e))
  ∧ (∀ resp e, first_map_url links = .ok (some u) → u.truthy = true →
        deps.download u = .ok resp →
        parse_map deps.dc0 deps.dh deps.dv0 deps.dv1 resp = .error e →
        get_map deps colors settings (some links) =
          .error (.wrap .valueError "Failed to process map data" e))
  ∧ (∀ resp hdr arr e, first_map_url links = .ok (some u) → u.truthy = true →
        deps.download u = .ok resp →
        parse_map deps.dc0 deps.dh deps.dv0 deps.dv1 resp = .ok (hdr, arr) →
        render_layout deps.ta_c0 deps.ta_v0 deps.ta_v1 arr hdr colors = .error e →
        get_map deps colors settings (some links) =
          .error (.wrap .valueError "Failed to process map data" e)) := by
  refine ⟨?_, ?_, ?_⟩
  · intro e hfu htr hd
    simp [get_map, get_map_inner, hfu, htr, hd]
  · intro resp e hfu htr hd hpm
    simp [get_map, get_map_inner, hfu, htr, hd, hpm]
  · intro resp hdr arr e hfu htr hd hpm hrl
    simp [get_map, get_map_inner, hfu, htr, hd, hpm, hrl]

/-- A dependency fixture whose blob fetcher always fails. -/
def depsFetchFail : Deps :=
  { depsC3 with download := fun _ => .error (.base .requestError "timeout") }

/-- Witness for C4: a fetch failure surfaces as the wrapped `ValueError` with
the original `RequestException` as its cause. -/
theorem get_map_wraps_fatal_witness :
    get_map depsFetchFail [] {} (some linksW) =
      .error (.wrap .valueError "Failed to process map data"
        (.base .requestError "timeout")) := by
  exact (get_map_wraps_fatal depsFetchFail [] {} linksW (Json.str "m")).1
    (.base .requestError "timeout") rfl rfl rfl

/-! ## C7 -/

/-- C7: with dock coordinates present in the header, the dock block draws the
radius-10 filled circle with contrasting outline (`ellipseAt`) centered at
the per-format transform of the pile coordinates — `map_to_image` for the
structured format, `_format_path_point` for the binary ones — multiplied by
the scale factor (`markerCenter`), and that center is linear in the scale:
doubling the scale doubles both pixel offsets from the origin. -/
theorem dock_marker_spec (fpp : ℚ × ℚ → Bool → ℚ × ℚ) (header : Header)
    (scale : Nat) (image : PImage) (x y res xm ym : ℚ)
    (hx : header.pileX = some x) (hy : header.pileY = some y) :
    (header.version = .str "custom0" → header.mapResolution = some res →
       header.x_min = some xm → header.y_min = some ym →
       dock_draw fpp header scale image =
         .ok (ellipseAt (markerCenter (map_to_image (x, y) res xm ym) scale).1
              (markerCenter (map_to_image (x, y) res xm ym) scale).2 image))
  ∧ ((header.version = .list [0] ∨ header.version = .list [1]) →
       dock_draw fpp header scale image =
         .ok (ellipseAt (markerCenter (fpp (x, y) false) scale).1
              (markerCenter (fpp (x, y) false) scale).2 image))
  ∧ (∀ p : ℚ × ℚ,
       markerCenter p (2 * scale) =
         (2 * (markerCenter p scale).1, 2 * (markerCenter p scale).2)) := by
  refine ⟨?_, ?_, ?_⟩
  · intro hv hres hxm hym
    have hne : ¬ (header.version = .list [0] ∨ header.version = .list [1]) := by
      simp [hv]
    simp [dock_draw, hx, hy, hne, hres, hxm, hym]
  · intro hv
    rcases hv with hv | hv <;> simp [dock_draw, hx, hy, hv]
  · intro p
    simp only [markerCenter, Prod.mk.injEq]
    constructor <;> push_cast <;> ring

/-- Witness for C7: on the structured fixture header (pile (6, 8), resolution
2, origin (4, 4)) at scale 540 the marker lands at (540, 1080), and doubling
the scale doubles the center. -/
theorem dock_marker_spec_witness :
    dock_draw (fun p _ => p) hdrC 540 (.raw [[1, 2], [3, 4]]) =
      .ok (ellipseAt (markerCenter (map_to_image (6, 8) 2 4 4) 540).1
           (markerCenter (map_to_image (6, 8) 2 4 4) 540).2 (.raw [[1, 2], [3, 4]]))
  ∧ markerCenter (1, 2) (2 * 540) =
      (2 * (markerCenter (1, 2) 540).1, 2 * (markerCenter (1, 2) 540).2) := by
  have h := dock_marker_spec (fun p _ => p) hdrC 540 (.raw [[1, 2], [3, 4]])
    6 8 2 4 4 rfl rfl
  exact ⟨h.1 rfl rfl rfl rfl, h.2.2 (1, 2)⟩

/-! ## C8 -/

/-- C8: in the path branch the integer scale factor equals
`floor(1080 / width)` (shown both as the natural-division value and by the
floor characterization `scale * width ≤ 1080 < (scale + 1) * width`), the
raster is upscaled to `(width * scale, height * scale)` with box resampling,
and the decoded path coordinates are each multiplied by that same scale. -/
theorem path_scale_spec (deps : Deps) (link : Json) (colors : Colors)
    (header : Header) (image : PImage) (presp : Response) (d : Json)
    (pd : List (List ℚ)) (hw : 0 < image.sizeW) :
    (scale_calc image.sizeW = .ok (1080 / image.sizeW)
      ∧ (1080 / image.sizeW) * image.sizeW ≤ 1080
      ∧ 1080 < ((1080 / image.sizeW) + 1) * image.sizeW)
  ∧ (∀ e, deps.download link = .ok presp →
       parse_path deps.dpc0 deps.dpv1 presp ((1080 / image.sizeW : Nat) : ℚ) header =
         .error e →
       path_try deps link colors header image =
         .resize (image.sizeW * (1080 / image.sizeW))
           (image.sizeH * (1080 / image.sizeW)) .box image)
  ∧ (presp.jsonVal = some d → deps.dpc0 d header = .ok pd →
       ∀ s : ℚ, parse_path deps.dpc0 deps.dpv1 presp s header =
         .ok (pd.flatten.map (fun i => i * s))) := by
  have hw' : image.sizeW ≠ 0 := Nat.pos_iff_ne_zero.mp hw
  refine ⟨⟨?_, ?_, ?_⟩, ?_, ?_⟩
  · simp [scale_calc, hw']
  · exact Nat.div_mul_le_self 1080 image.sizeW
  · have hdm := Nat.div_add_mod 1080 image.sizeW
    have hml := Nat.mod_lt 1080 hw
    nlinarith [hdm, hml]
  · intro e hd hp
    simp [path_try, hd, scale_calc, hw', hp]
  · intro hj hdc s
    simp [parse_path, hj, hdc]

/-- A dependency fixture whose structured path decoder succeeds with two
points. -/
def depsPathOk : Deps :=
  { depsC3 with dpc0 := fun _ _ => .ok [[1, 2], [3, 4]] }

/-- Witness for C8: width 2 gives scale 540; the failing-decode fixture shows
the 1080×1080 box resize; the succeeding fixture scales every coordinate by
540. -/
theorem path_scale_spec_witness :
    scale_calc 2 = .ok 540
  ∧ path_try depsC3 (Json.str "p") [] hdr0 (.raw [[1, 2], [3, 4]]) =
      .resize 1080 1080 .box (.raw [[1, 2], [3, 4]])
  ∧ parse_path depsPathOk.dpc0 depsPathOk.dpv1 respPathW 540 hdr0 =
      .ok [540, 1080, 1620, 2160] := by
  refine ⟨?_, ?_, ?_⟩
  · exact (path_scale_spec depsC3 (Json.str "p") [] hdr0 (.raw [[1, 2], [3, 4]])
      respPathW (Json.obj []) [] (by decide)).1.1
  · exact (path_scale_spec depsC3 (Json.str "p") [] hdr0 (.raw [[1, 2], [3, 4]])
      respPathW (Json.obj []) [] (by decide)).2.1
      (.base .keyError "path decode failed") rfl rfl
  · have h := (path_scale_spec depsPathOk (Json.str "p") [] hdr0
      (.raw [[1, 2], [3, 4]]) respPathW (Json.obj []) [[1, 2], [3, 4]]
      (by decide)).2.2 rfl rfl 540
    refine h.trans ?_
    norm_num [List.flatten]

/-! ## C9 -/

/-- A link list whose first entry lacks the map-role key. -/
def linksSkew : List Json := [Json.obj [], Json.obj [("map_url", Json.str "u")]]

/-- C9, counterexample: when the first list entry lacks the map-role key, the
map URL comes from the second entry, and the path search over
`urls["links"][1:]` picks that same entry — while the claim's rule (first
key-carrying entry strictly after the map entry, always a different entry)
would yield no path URL at all. -/
theorem path_url_same_entry_cex :
    first_map_url linksSkew = .ok (some (Json.str "u"))
  ∧ first_map_url (linksSkew.drop 1) = .ok (some (Json.str "u"))
  ∧ spec_path_url linksSkew = .ok none
  ∧ (Except.ok (some (Json.str "u")) : Except PyErr (Option Json)) ≠ .ok none := by
  refine ⟨rfl, rfl, rfl, ?_⟩
  simp

/-- C9, amended: the map URL is the first entry carrying the map-role key;
the path URL is the first entry carrying that key among the entries from
index 1 on (the list minus its first element).  Whenever the map entry is the
list's first element this coincides with the claim's rule — the first
key-carrying entry after the map entry, necessarily a different entry — but
when the map-role key first occurs later, the same entry can be chosen for
both URLs. -/
theorem path_url_drop_one (e : Json) (rest : List Json)
    (he : pyIn "map_url" e = .ok true) :
    first_map_url ((e :: rest).drop 1) = first_map_url rest
  ∧ spec_path_url (e :: rest) = first_map_url rest
  ∧ first_map_url (e :: rest) = (pyGet e "map_url").map some := by
  refine ⟨rfl, ?_, ?_⟩
  · simp [spec_path_url, he]
  · cases hg : pyGet e "map_url" <;> simp [first_map_url, he, hg, Except.map]

/-- Witness for C9's amended statement: with the map entry first, the path
search over the tail finds the second entry. -/
theorem path_url_drop_one_witness :
    first_map_url (linksW.drop 1) = .ok (some (Json.str "p"))
  ∧ spec_path_url linksW = .ok (some (Json.str "p")) := by
  have h := path_url_drop_one (Json.obj [("map_url", Json.str "m")])
    [Json.obj [("map_url", Json.str "p")]] rfl
  exact ⟨h.1.trans rfl, h.2.1.trans rfl⟩

end TuyaMap
